import Mathlib

/-!
Verification of the single-dispatch registry of `apfel.core.dispatch`
(`src/apfel/core/dispatch.py`).

The embedding mirrors the Python module shallowly:

* a Python `dict` keyed by types becomes an insertion-ordered association
  list over numeric type identities (`dictGet` / `dictSet`);
* a Python class becomes a `PyType`: its identity, `__name__`, `__mro__`
  (list of ancestor identities, most derived first, ending at `object`),
  a class-attribute lookup oracle (`getattr` on the class, as used by the
  fast path of `decide_impl`), an `isinstance`/`issubclass` oracle
  (which also accounts for ABC virtual registration), and the identity of
  its metaclass (`type(C)`), which matters for `classmethod.__get__`;
* implementations are opaque values of a type parameter; concrete
  witnesses instantiate it with `PyObj`, which records a tag plus whether
  the value is callable (the Python code never checks callability);
* exceptions raised by the module become `Except PyError` results, the
  `NotImplementedError` / `ValueError` messages reproduced verbatim.
-/

set_option autoImplicit false

namespace Apfel

/-- Python `dict` lookup on an insertion-ordered association list with
unique keys: first (only) binding of the key. -/
def dictGet {α : Type} : List (Nat × α) → Nat → Option α
  | [], _ => none
  | (k, v) :: rest, key => if k = key then some v else dictGet rest key

/-- Python `dict` assignment `d[key] = v`: overwrite in place if the key
is present, otherwise append at the end. -/
def dictSet {α : Type} : List (Nat × α) → Nat → α → List (Nat × α)
  | [], key, v => [(key, v)]
  | (k, w) :: rest, key, v =>
    if k = key then (k, v) :: rest else (k, w) :: dictSet rest key v

/-- Python `d.get(key, fallback)`. -/
def dictGetD {α : Type} (d : List (Nat × α)) (key : Nat) (fallback : α) : α :=
  (dictGet d key).getD fallback

/-- A Python class, as consumed by the dispatch machinery.  `getattr`
is attribute lookup on the class itself (inherited attributes included),
`instOf c` is the `isinstance`/`issubclass` oracle against the class with
identity `c` (ABC virtual registration included), and `metaId` is the
identity of `type(self)`, the metaclass. -/
structure PyType (α : Type) where
  id : Nat
  name : String
  mro : List Nat
  getattr : String → Option α
  instOf : Nat → Bool
  metaId : Nat

/-- Exceptions raised by `apfel.core.dispatch`. -/
inductive PyError where
  | notImplementedError (msg : String)
  | valueError (msg : String)
deriving DecidableEq

/-- Decidable equality of results, for evaluating concrete scenarios. -/
instance exceptDecEq {ε α : Type} [DecidableEq ε] [DecidableEq α] :
    DecidableEq (Except ε α)
  | Except.ok a, Except.ok b =>
    if h : a = b then isTrue (by rw [h]) else isFalse (by simp [h])
  | Except.ok _, Except.error _ => isFalse (by simp)
  | Except.error _, Except.ok _ => isFalse (by simp)
  | Except.error e, Except.error e' =>
    if h : e = e' then isTrue (by rw [h]) else isFalse (by simp [h])

/-- Message of the `NotImplementedError` raised by `decide_impl`:
`"No implementation {enclosing_class}found for {ty_receiver}"`, where the
first hole is `"of <name> "` when an enclosing class is set and empty
otherwise.  Note that the dispatched operation's name does not appear. -/
def noImplMsg (enclosingName : Option String) (tyName : String) : String :=
  "No implementation "
    ++ (match enclosingName with
        | some n => "of " ++ n ++ " "
        | none => "")
    ++ "found for " ++ tyName

/-- An argument to `add_impl` / `get_impl`: either a type or any value
that is not a type (`isinstance(arg, type)` is false). -/
inductive PyVal (α : Type) where
  | type (t : PyType α)
  | nonType

/-- `DispatchRegistry` of `apfel.core.dispatch`: the fallback
`self.function` together with its `__name__`, the `registry` dict mapping
type identities to implementations, and the optional enclosing class
(identity and `__name__`).  `decorate_assignments` only affects wrapper
metadata and is not modelled. -/
structure DispatchRegistry (α : Type) where
  function : α
  functionName : String
  registry : List (Nat × α)
  enclosingClass : Option (Nat × String)
deriving DecidableEq

/-- The `for cls in ty.__mro__: if cls in self.registry: return
self.registry[cls]` loop of `decide_impl`: first MRO entry that is a key
of the registry wins. -/
def mroLookup {α : Type} (registry : List (Nat × α)) : List Nat → Option α
  | [] => none
  | c :: rest =>
    match dictGet registry c with
    | some f => some f
    | none => mroLookup registry rest

/-- The fast path of `decide_impl`: when an enclosing class is set, the
receiver is an instance of it, and `getattr(ty_receiver,
self.function.__name__, None)` is not `None`, that attribute is the
implementation. -/
def DispatchRegistry.fastImpl {α : Type} (self : DispatchRegistry α)
    (tyReceiver : PyType α) : Option α :=
  match self.enclosingClass with
  | some (cid, _) =>
    if tyReceiver.instOf cid then tyReceiver.getattr self.functionName else none
  | none => none

/-- The tail of `decide_impl` after the fast path: walk the MRO through
the registry; when nothing matches, raise `NotImplementedError` whose
message names the enclosing class (if any) and the receiver's type — not
the operation. -/
def DispatchRegistry.registryWalk {α : Type} (self : DispatchRegistry α)
    (t : PyType α) : Except PyError α :=
  match mroLookup self.registry t.mro with
  | some f => Except.ok f
  | none =>
    Except.error (PyError.notImplementedError
      (noImplMsg (self.enclosingClass.map Prod.snd) t.name))

/-- `DispatchRegistry.decide_impl`, receiver (instance-method) flavor.
The Python function receives the call arguments and only inspects the
receiver's concrete type, so the embedding takes that type directly. -/
def DispatchRegistry.decide_impl {α : Type} (self : DispatchRegistry α)
    (tyReceiver : PyType α) : Except PyError α :=
  match self.fastImpl tyReceiver with
  | some impl => Except.ok impl
  | none => self.registryWalk tyReceiver

/-- `DispatchRegistry.add_impl`: exactly one positional key is required
and it must be a type, otherwise a `ValueError` is raised before the
registry is touched; on success `self.registry[ty] = func`.  The
implementation `func` itself is never validated. -/
def DispatchRegistry.add_impl {α : Type} (self : DispatchRegistry α)
    (func : α) (args : List (PyVal α)) : Except PyError (DispatchRegistry α) :=
  match args with
  | [arg] =>
    match arg with
    | PyVal.type t =>
      Except.ok { self with registry := dictSet self.registry t.id func }
    | PyVal.nonType =>
      Except.error (PyError.valueError
        "Single dispatch only supports dispatching based on types")
  | _ =>
    Except.error (PyError.valueError "Single dispatch only supports one argument")

/-- `DispatchRegistry.get_impl`: same argument validation as `add_impl`,
then `self.registry.get(ty, self.function)` — an exact-key lookup with
the fallback function as default, no MRO walk. -/
def DispatchRegistry.get_impl {α : Type} (self : DispatchRegistry α)
    (args : List (PyVal α)) : Except PyError α :=
  match args with
  | [arg] =>
    match arg with
    | PyVal.type t => Except.ok (dictGetD self.registry t.id self.function)
    | PyVal.nonType =>
      Except.error (PyError.valueError
        "Single dispatch only supports dispatching based on types")
  | _ =>
    Except.error (PyError.valueError "Single dispatch only supports one argument")

/-- First argument of the class-method / static-method dispatch flavors:
`ty_or_receiver` is "either a type value directly, or an instance from
which the type is derived". -/
inductive TyOrInstance (α : Type) where
  | typeVal (t : PyType α)
  | instVal (t : PyType α)

/-- `ty = ty_or_receiver if isinstance(ty_or_receiver, type) else
type(ty_or_receiver)`. -/
def TyOrInstance.ty {α : Type} : TyOrInstance α → PyType α
  | .typeVal t => t
  | .instVal t => t

/-- `DispatchRegistryForClassMethod.decide_impl`: like the receiver
flavor but keyed on the type argument itself, with `issubclass(ty,
self.enclosing_class)` as the fast-path guard (the same oracle field of
`PyType`).  The `if not hasattr(ty, "__mro__"): ty = type(ty)` guard is
vacuous here because every `PyType` carries an MRO. -/
def DispatchRegistry.decideImplForClassMethod {α : Type}
    (self : DispatchRegistry α) (arg : TyOrInstance α) : Except PyError α :=
  match self.fastImpl arg.ty with
  | some impl => Except.ok impl
  | none => self.registryWalk arg.ty

/-- Implementations held by a class-method registry: `add_impl` wraps
raw functions in `classmethod`, while the fast path hands back an
attribute that `getattr` has already bound to the class it was found on
(bound methods return themselves from `__get__`). -/
inductive CMImpl (γ : Type) where
  | classmethodObj (f : γ)
  | boundMethod (f : γ) (cls : Nat)
deriving DecidableEq

/-- `DispatchRegistryForClassMethod.add_impl`: wrap in `classmethod` if
needed, then defer to `DispatchRegistry.add_impl`. -/
def addImplForClassMethod {γ : Type} (self : DispatchRegistry (CMImpl γ))
    (func : γ) (args : List (PyVal (CMImpl γ))) :
    Except PyError (DispatchRegistry (CMImpl γ)) :=
  self.add_impl (CMImpl.classmethodObj func) args

/-- Semantics of `impl.__get__(key)` as performed by
`DispatchRegistryForClassMethod.make_dispatch_func.dyn.__class_getitem__`.
For a `classmethod` object, CPython's `cm_descr_get` with a single
argument binds to `type(obj)`: the concrete type when `key` is an
instance, but the *metaclass* when `key` is itself a type.  A bound
method returns itself, keeping its existing binding.  The result pairs
the underlying function with the identity of the class it is bound to. -/
def cmDescrGet {γ : Type} : CMImpl γ → TyOrInstance (CMImpl γ) → γ × Nat
  | CMImpl.classmethodObj f, TyOrInstance.typeVal t => (f, t.metaId)
  | CMImpl.classmethodObj f, TyOrInstance.instVal t => (f, t.id)
  | CMImpl.boundMethod f c, _ => (f, c)

/-- `dyn[key]` for a class-method slot: `impl = self.decide_impl(key);
return impl.__get__(key)`. -/
def classMethodGetItem {γ : Type} (self : DispatchRegistry (CMImpl γ))
    (key : TyOrInstance (CMImpl γ)) : Except PyError (γ × Nat) :=
  match self.decideImplForClassMethod key with
  | Except.ok impl => Except.ok (cmDescrGet impl key)
  | Except.error e => Except.error e

/-- Implementations held by a static-method registry: `add_impl` wraps
raw functions in `staticmethod`. -/
inductive SMImpl (γ : Type) where
  | staticmethodObj (f : γ)
deriving DecidableEq

/-- `DispatchRegistryForStaticMethod.add_impl`: wrap in `staticmethod`
if needed, then defer to `DispatchRegistry.add_impl`. -/
def addImplForStaticMethod {γ : Type} (self : DispatchRegistry (SMImpl γ))
    (func : γ) (args : List (PyVal (SMImpl γ))) :
    Except PyError (DispatchRegistry (SMImpl γ)) :=
  self.add_impl (SMImpl.staticmethodObj func) args

/-- `dyn[key]` for a static-method slot: `return self.decide_impl(key)`
with no descriptor binding at all. -/
def staticMethodGetItem {γ : Type} (self : DispatchRegistry (SMImpl γ))
    (key : TyOrInstance (SMImpl γ)) : Except PyError (SMImpl γ) :=
  self.decideImplForClassMethod key

/-- Calling the object returned by a static-method `dyn[key]` with the
remaining arguments: a `staticmethod` object invokes its underlying
function with exactly the arguments given (the `key` used for resolution
is not among them).  Arguments are opaque tokens; the result pairs the
implementation with the argument list it receives. -/
def smApply {γ : Type} : SMImpl γ → List Nat → γ × List Nat
  | SMImpl.staticmethodObj f, args => (f, args)

/-- `Trait.static_method[key](*args)`: resolve via `dyn[key]`, then call
the resolved object on `args`. -/
def staticMethodSubscriptCall {γ : Type} (self : DispatchRegistry (SMImpl γ))
    (key : TyOrInstance (SMImpl γ)) (args : List Nat) :
    Except PyError (γ × List Nat) :=
  match staticMethodGetItem self key with
  | Except.ok impl => Except.ok (smApply impl args)
  | Except.error e => Except.error e

/-- An `ABCDispatch` interface as seen by the `impl` decorator: its
`__name__` and its dispatchable slots in declaration order
(`__dispatch_methods__` is the set of slot names; `getattr(definition,
name).__dispatch__` is the slot's registry). -/
structure Interface (α : Type) where
  name : String
  slots : List (String × DispatchRegistry α)
deriving DecidableEq

/-- The interface's `__dispatch_methods__`. -/
def Interface.slotNames {α : Type} (iface : Interface α) : List String :=
  iface.slots.map Prod.fst

/-- Effect of `getattr(definition, name).__dispatch__.add_impl(func,
impl_for)` inside the `impl` decorator: update the named slot's registry
at the implementor type's identity.  `impl_for` is `impl.__base__`,
always a type, so this `add_impl` call cannot raise. -/
def Interface.addToSlot {α : Type} (iface : Interface α) (opName : String)
    (func : α) (implForId : Nat) : Interface α :=
  { iface with
    slots := iface.slots.map fun s =>
      if s.1 = opName then
        (s.1, { s.2 with registry := dictSet s.2.registry implForId func })
      else s }

/-- The registration loop of the `impl` decorator (`for name, func in
vars(impl).items(): ...`), restricted to the function-valued entries it
does not skip.  Each entry is checked against `__dispatch_methods__` and
then registered immediately; on the first unknown name a `ValueError`
naming the operation and the interface is raised, with every earlier
registration already performed.  The result is the interface state at
exit together with the raised error, if any. -/
def implRegisterLoop {α : Type} (iface : Interface α) (implForId : Nat) :
    List (String × α) → Interface α × Option PyError
  | [] => (iface, none)
  | (opName, func) :: rest =>
    if iface.slotNames.contains opName then
      implRegisterLoop (iface.addToSlot opName func implForId) implForId rest
    else
      (iface, some (PyError.valueError
        (opName ++ " of " ++ iface.name ++ " does not support dispatching")))

/-- An opaque Python object for concrete scenarios: an identity tag plus
whether the object is callable. -/
structure PyObj where
  tag : Nat
  callable : Bool
deriving DecidableEq

/-- A type with no interesting attributes and no instance relations,
whose metaclass is `type` (identity 100 throughout the fixtures). -/
def mkPlainType {α : Type} (i : Nat) (nm : String) (mro : List Nat) : PyType α :=
  { id := i, name := nm, mro := mro, getattr := fun _ => none,
    instOf := fun _ => false, metaId := 100 }

/-- Fallback body of a `@dispatch` function. -/
def objFallback : PyObj := ⟨9, true⟩

/-- Registry of `@dispatch def f(x): ...` before any registration:
fallback present, empty registry, no enclosing class. -/
def showFnReg : DispatchRegistry PyObj :=
  { function := objFallback, functionName := "f", registry := [],
    enclosingClass := none }

/-- The built-in `float` type (identity 3), unregistered. -/
def tyFloat : PyType PyObj := mkPlainType 3 "float" [3, 0]

/-- Implementations registered for the ancestors `U` (identity 20) and
`Base` (identity 30) in the nearer-ancestor scenario. -/
def objU : PyObj := ⟨2, true⟩

/-- Implementation registered for the farther ancestor `Base`. -/
def objB : PyObj := ⟨3, true⟩

/-- Registry with implementations for `U` and `Base` but not `T`. -/
def regC2 : DispatchRegistry PyObj :=
  { function := objFallback, functionName := "m",
    registry := [(20, objU), (30, objB)], enclosingClass := none }

/-- The type `T` with ancestry `T -> U -> Base -> object`. -/
def tyTC2 : PyType PyObj := mkPlainType 10 "T" [10, 20, 30, 0]

/-- Result of a direct (inherited/overridden) definition of the slot. -/
def objOverride : PyObj := ⟨4, true⟩

/-- Result of an explicit out-of-band registration. -/
def objReg : PyObj := ⟨5, true⟩

/-- A slot of the interface `Trait` (identity 50) with an explicit
registration for the type of identity 11. -/
def regC3 : DispatchRegistry PyObj :=
  { function := objFallback, functionName := "method",
    registry := [(11, objReg)], enclosingClass := some (50, "Trait") }

/-- A subtype of `Trait` (its `instOf` oracle accepts identity 50) that
directly defines `method` on itself, and also has identity 11 so the
registration of `regC3` targets it. -/
def tyOverriding : PyType PyObj :=
  { id := 11, name := "T", mro := [11, 50, 0],
    getattr := fun nm => if nm = "method" then some objOverride else none,
    instOf := fun c => c == 50 || c == 11,
    metaId := 100 }

/-- Registries differing only in the dispatched operation's name, used
to show the resolution error does not carry that name. -/
def regRender : DispatchRegistry PyObj :=
  { function := objFallback, functionName := "render", registry := [],
    enclosingClass := some (60, "Show") }

/-- Same slot state as `regRender` but for an operation named
`other_op`. -/
def regOther : DispatchRegistry PyObj :=
  { function := objFallback, functionName := "other_op", registry := [],
    enclosingClass := some (60, "Show") }

/-- An unregistered type that is not an instance of `Show`. -/
def tyEmptyC : PyType PyObj := mkPlainType 5 "EmptyClass" [5, 0]

/-- The slot `good` of the interface `ITest`, initially unregistered. -/
def regGoodSlot : DispatchRegistry PyObj :=
  { function := objFallback, functionName := "good", registry := [],
    enclosingClass := some (70, "ITest") }

/-- The interface `ITest` with the single dispatchable slot `good`. -/
def ifaceC4 : Interface PyObj := { name := "ITest", slots := [("good", regGoodSlot)] }

/-- Implementation supplied for the valid operation name `good`. -/
def objGoodImpl : PyObj := ⟨21, true⟩

/-- Implementation supplied for the unknown operation name `bad`. -/
def objBadImpl : PyObj := ⟨22, true⟩

/-- Classmethod implementation registered for the type of identity 1. -/
def objRImpl : PyObj := ⟨31, true⟩

/-- Class-method slot with a registration for the type of identity 1
(`R`). -/
def cmRegC7 : DispatchRegistry (CMImpl PyObj) :=
  { function := CMImpl.classmethodObj ⟨30, true⟩, functionName := "make",
    registry := [(1, CMImpl.classmethodObj objRImpl)], enclosingClass := none }

/-- The subclass `S` (identity 2) of the registrant `R` (identity 1),
with metaclass `type` (identity 100) and no registration of its own. -/
def tySWidget : PyType (CMImpl PyObj) := mkPlainType 2 "SWidget" [2, 1, 0]

/-- Staticmethod implementation registered for the type of identity 1. -/
def objSImpl : PyObj := ⟨41, true⟩

/-- Static-method slot with a registration for the type of identity 1. -/
def smRegC8 : DispatchRegistry (SMImpl PyObj) :=
  { function := SMImpl.staticmethodObj ⟨40, true⟩, functionName := "sm",
    registry := [(1, SMImpl.staticmethodObj objSImpl)], enclosingClass := none }

/-- The subclass key used for static-method resolution. -/
def tySWidgetS : PyType (SMImpl PyObj) := mkPlainType 2 "SWidget" [2, 1, 0]

/-- A value that is not callable, offered as an implementation. -/
def objNonCallable : PyObj := ⟨8, false⟩

/-- Registry used for the registration-validation scenarios. -/
def plainReg : DispatchRegistry PyObj :=
  { function := objFallback, functionName := "g", registry := [],
    enclosingClass := none }

/-- The type `int` (identity 3), target of a registration. -/
def tyIntC9 : PyType PyObj := mkPlainType 3 "int" [3, 0]

/-- Registry with a registration for `R` (identity 1) only. -/
def regC10 : DispatchRegistry PyObj :=
  { function := objFallback, functionName := "h", registry := [(1, objReg)],
    enclosingClass := none }

/-- The registrant type `R`. -/
def tyRC10 : PyType PyObj := mkPlainType 1 "R" [1, 0]

/-- A strict subclass `S` of `R`, itself unregistered. -/
def tySC10 : PyType PyObj := mkPlainType 2 "S" [2, 1, 0]

/-- Implementations used for the double-registration scenario. -/
def objF1 : PyObj := ⟨6, true⟩

/-- Second implementation registered for the same `(slot, type)` pair. -/
def objF2 : PyObj := ⟨7, true⟩

/-- Writing a key into a dict makes that key's lookup return the new
value. -/
theorem dictGet_dictSet_self {α : Type} (d : List (Nat × α)) (k : Nat) (v : α) :
    dictGet (dictSet d k v) k = some v := by
  induction d with
  | nil => simp [dictSet, dictGet]
  | cons p rest ih =>
    obtain ⟨k0, v0⟩ := p
    by_cases h : k0 = k <;> simp [dictSet, dictGet, h, ih]

/-- The fast path only reads the enclosing class and the operation name,
so updating the registry does not change it. -/
theorem fastImpl_set_registry {α : Type} (reg : DispatchRegistry α)
    (r' : List (Nat × α)) (t : PyType α) :
    DispatchRegistry.fastImpl { reg with registry := r' } t = reg.fastImpl t := rfl

/-- MRO walk when the head is registered. -/
theorem mroLookup_cons_found {α : Type} (d : List (Nat × α)) (c : Nat)
    (rest : List Nat) (f : α) (h : dictGet d c = some f) :
    mroLookup d (c :: rest) = some f := by
  unfold mroLookup
  rw [h]

/-- MRO walk when the head is not registered. -/
theorem mroLookup_cons_miss {α : Type} (d : List (Nat × α)) (c : Nat)
    (rest : List Nat) (h : dictGet d c = none) :
    mroLookup d (c :: rest) = mroLookup d rest := by
  conv_lhs => unfold mroLookup
  rw [h]

/-- When the fast path misses, `decide_impl` is the registry walk. -/
theorem decide_impl_of_fastImpl_none {α : Type} (reg : DispatchRegistry α)
    (t : PyType α) (h : reg.fastImpl t = none) :
    reg.decide_impl t = reg.registryWalk t := by
  unfold DispatchRegistry.decide_impl
  rw [h]

/-- When the fast path hits, `decide_impl` returns its result. -/
theorem decide_impl_of_fastImpl_some {α : Type} (reg : DispatchRegistry α)
    (t : PyType α) (impl : α) (h : reg.fastImpl t = some impl) :
    reg.decide_impl t = Except.ok impl := by
  unfold DispatchRegistry.decide_impl
  rw [h]

/-- The fast path hits when an enclosing class is set, the receiver is
an instance of it, and the class attribute named after the operation
exists. -/
theorem fastImpl_hit {α : Type} (reg : DispatchRegistry α) (t : PyType α)
    (cid : Nat) (cname : String) (impl : α)
    (henc : reg.enclosingClass = some (cid, cname))
    (hinst : t.instOf cid = true)
    (hover : t.getattr reg.functionName = some impl) :
    reg.fastImpl t = some impl := by
  unfold DispatchRegistry.fastImpl
  rw [henc]
  simp [hinst, hover]

/-- Registry walk result when the MRO lookup succeeds. -/
theorem registryWalk_found {α : Type} (reg : DispatchRegistry α) (t : PyType α)
    (f : α) (h : mroLookup reg.registry t.mro = some f) :
    reg.registryWalk t = Except.ok f := by
  unfold DispatchRegistry.registryWalk
  rw [h]

/-- Registry walk result when the MRO lookup fails. -/
theorem registryWalk_missing {α : Type} (reg : DispatchRegistry α) (t : PyType α)
    (h : mroLookup reg.registry t.mro = none) :
    reg.registryWalk t = Except.error (PyError.notImplementedError
      (noImplMsg (reg.enclosingClass.map Prod.snd) t.name)) := by
  unfold DispatchRegistry.registryWalk
  rw [h]

/-- Registering into one slot does not change the set of slot names. -/
theorem slotNames_addToSlot {α : Type} (iface : Interface α) (opName : String)
    (func : α) (tid : Nat) :
    (iface.addToSlot opName func tid).slotNames = iface.slotNames := by
  unfold Interface.addToSlot Interface.slotNames
  induction iface.slots with
  | nil => rfl
  | cons s rest ih =>
    by_cases h : s.1 = opName <;> simp [h] <;> simpa using ih

/-- C1: the claim says resolution falls back to the interface's default
(blanket) implementation when no registration is found anywhere, and
never fails.  On the code, `decide_impl` raises `NotImplementedError`
without ever consulting the fallback `self.function`: a `@dispatch`
function with a fallback body and an empty registry, applied to a
`float`, errors instead of returning the fallback. -/
theorem decide_impl_raises_instead_of_fallback :
    DispatchRegistry.decide_impl showFnReg tyFloat
        = Except.error (PyError.notImplementedError "No implementation found for float")
      ∧ DispatchRegistry.decide_impl showFnReg tyFloat
        ≠ Except.ok showFnReg.function := by
  refine ⟨by decide, by decide⟩

/-- C2: when the receiver's ancestry is `T -> U -> Base -> ...` with
implementations registered for `U` and `Base` but not `T`, and the
inheritance fast path does not apply, `decide_impl` selects `U`'s
implementation (the nearer ancestor), never `Base`'s. -/
theorem decide_impl_nearer_ancestor_wins {α : Type} (reg : DispatchRegistry α)
    (t : PyType α) (tid uid bid : Nat) (rest : List Nat) (fU fB : α)
    (hfast : reg.fastImpl t = none)
    (hmro : t.mro = tid :: uid :: rest)
    (hbid : bid ∈ rest)
    (hT : dictGet reg.registry tid = none)
    (hU : dictGet reg.registry uid = some fU)
    (hB : dictGet reg.registry bid = some fB)
    (hne : fU ≠ fB) :
    reg.decide_impl t = Except.ok fU ∧ reg.decide_impl t ≠ Except.ok fB := by
  have hwalk : mroLookup reg.registry t.mro = some fU := by
    rw [hmro, mroLookup_cons_miss _ _ _ hT, mroLookup_cons_found _ _ _ _ hU]
  have hok : reg.decide_impl t = Except.ok fU := by
    rw [decide_impl_of_fastImpl_none _ _ hfast, registryWalk_found _ _ _ hwalk]
  refine ⟨hok, ?_⟩
  rw [hok]
  simp only [ne_eq, Except.ok.injEq]
  exact hne

/-- Witness for C2 at the fixture `regC2` / `tyTC2`. -/
theorem decide_impl_nearer_ancestor_wins_witness :
    DispatchRegistry.fastImpl regC2 tyTC2 = none
      ∧ dictGet regC2.registry 10 = none
      ∧ dictGet regC2.registry 20 = some objU
      ∧ dictGet regC2.registry 30 = some objB
      ∧ DispatchRegistry.decide_impl regC2 tyTC2 = Except.ok objU
      ∧ DispatchRegistry.decide_impl regC2 tyTC2 ≠ Except.ok objB :=
  ⟨by decide, by decide, by decide, by decide,
    (decide_impl_nearer_ancestor_wins regC2 tyTC2 10 20 30 [30, 0] objU objB
      (by decide) (by decide) (by decide) (by decide) (by decide) (by decide)
      (by decide)).1,
    (decide_impl_nearer_ancestor_wins regC2 tyTC2 10 20 30 [30, 0] objU objB
      (by decide) (by decide) (by decide) (by decide) (by decide) (by decide)
      (by decide)).2⟩

/-- C3: for a receiver whose type is an instance of the interface's
nominal type and directly defines the slot's operation on itself, while
an explicit registration for the same type also exists, `decide_impl`
returns the direct override, not the registered implementation. -/
theorem decide_impl_override_beats_registration {α : Type}
    (reg : DispatchRegistry α) (t : PyType α) (cid : Nat) (cname : String)
    (ov freg : α)
    (henc : reg.enclosingClass = some (cid, cname))
    (hinst : t.instOf cid = true)
    (hover : t.getattr reg.functionName = some ov)
    (hreg : dictGet reg.registry t.id = some freg)
    (hne : ov ≠ freg) :
    reg.decide_impl t = Except.ok ov ∧ reg.decide_impl t ≠ Except.ok freg := by
  have hok : reg.decide_impl t = Except.ok ov :=
    decide_impl_of_fastImpl_some _ _ _ (fastImpl_hit _ _ _ _ _ henc hinst hover)
  refine ⟨hok, ?_⟩
  rw [hok]
  simp only [ne_eq, Except.ok.injEq]
  exact hne

/-- Witness for C3 at the fixture `regC3` / `tyOverriding`. -/
theorem decide_impl_override_beats_registration_witness :
    regC3.enclosingClass = some (50, "Trait")
      ∧ PyType.getattr tyOverriding regC3.functionName = some objOverride
      ∧ dictGet regC3.registry tyOverriding.id = some objReg
      ∧ DispatchRegistry.decide_impl regC3 tyOverriding = Except.ok objOverride
      ∧ DispatchRegistry.decide_impl regC3 tyOverriding ≠ Except.ok objReg :=
  ⟨by decide, by decide, by decide,
    (decide_impl_override_beats_registration regC3 tyOverriding 50 "Trait"
      objOverride objReg (by decide) (by decide) (by decide) (by decide)
      (by decide)).1,
    (decide_impl_override_beats_registration regC3 tyOverriding 50 "Trait"
      objOverride objReg (by decide) (by decide) (by decide) (by decide)
      (by decide)).2⟩

/-- C4 counterexample: the claim says a bulk registration containing an
unknown operation name modifies no slot at all.  On the code, the `impl`
decorator registers entries as it validates them: with the table
`[good, bad]` over an interface declaring only `good`, the error is
raised for `bad` but `good`'s registration has already happened, so the
interface state differs from the initial one. -/
theorem impl_registers_before_raising :
    (implRegisterLoop ifaceC4 7 [("good", objGoodImpl), ("bad", objBadImpl)]).2
        = some (PyError.valueError "bad of ITest does not support dispatching")
      ∧ (implRegisterLoop ifaceC4 7 [("good", objGoodImpl), ("bad", objBadImpl)]).1
        ≠ ifaceC4 := by
  refine ⟨by decide, by decide⟩

/-- C4 (amended): a bulk registration whose table contains an unknown
operation name raises a `ValueError` naming that operation and the
interface, and leaves the interface with exactly the valid entries
preceding the offending one registered (registration is sequential, not
all-or-nothing). -/
theorem impl_register_stops_at_unknown_name {α : Type} (iface : Interface α)
    (tid : Nat) (pre : List (String × α)) (bad : String) (fB : α)
    (post : List (String × α))
    (hpre : ∀ p ∈ pre, iface.slotNames.contains p.1 = true)
    (hbad : iface.slotNames.contains bad = false) :
    implRegisterLoop iface tid (pre ++ (bad, fB) :: post) =
      (pre.foldl (fun acc p => acc.addToSlot p.1 p.2 tid) iface,
        some (PyError.valueError
          (bad ++ " of " ++ iface.name ++ " does not support dispatching"))) := by
  induction pre generalizing iface with
  | nil =>
    simp only [List.nil_append, implRegisterLoop, hbad, List.foldl_nil]
    simp
  | cons p rest ih =>
    obtain ⟨pn, pf⟩ := p
    have hp : iface.slotNames.contains pn = true := hpre (pn, pf) (by simp)
    simp only [List.cons_append, implRegisterLoop, hp, if_true, List.foldl_cons]
    exact ih (iface.addToSlot pn pf tid)
      (fun q hq => by
        rw [slotNames_addToSlot]
        exact hpre q (List.mem_cons_of_mem _ hq))
      (by rw [slotNames_addToSlot]; exact hbad)

/-- Witness for C4 (amended) at the fixture `ifaceC4`. -/
theorem impl_register_stops_at_unknown_name_witness :
    (Interface.slotNames ifaceC4).contains "bad" = false
      ∧ implRegisterLoop ifaceC4 7 [("good", objGoodImpl), ("bad", objBadImpl)] =
        ([("good", objGoodImpl)].foldl (fun acc p => acc.addToSlot p.1 p.2 7) ifaceC4,
          some (PyError.valueError
            ("bad" ++ " of " ++ ifaceC4.name ++ " does not support dispatching"))) :=
  ⟨by decide,
    impl_register_stops_at_unknown_name ifaceC4 7 [("good", objGoodImpl)] "bad"
      objBadImpl [] (by decide) (by decide)⟩

/-- C5: registering twice for the same `(slot, type)` pair never errors,
and afterwards both resolution (`decide_impl` on a receiver of exactly
that type, with the fast path not applying) and exact lookup
(`get_impl`) return the second implementation only. -/
theorem add_impl_last_write_wins {α : Type} (reg : DispatchRegistry α)
    (f1 f2 : α) (t : PyType α) (rest : List Nat)
    (hmro : t.mro = t.id :: rest)
    (hfast : reg.fastImpl t = none) :
    ∃ reg1 reg2,
      reg.add_impl f1 [PyVal.type t] = Except.ok reg1
        ∧ reg1.add_impl f2 [PyVal.type t] = Except.ok reg2
        ∧ reg2.decide_impl t = Except.ok f2
        ∧ reg2.get_impl [PyVal.type t] = Except.ok f2 := by
  refine ⟨{ reg with registry := dictSet reg.registry t.id f1 },
    { reg with registry := dictSet (dictSet reg.registry t.id f1) t.id f2 },
    rfl, rfl, ?_, ?_⟩
  · have hwalk : mroLookup (dictSet (dictSet reg.registry t.id f1) t.id f2) t.mro
        = some f2 := by
      rw [hmro]
      exact mroLookup_cons_found _ _ _ _ (dictGet_dictSet_self _ _ _)
    rw [decide_impl_of_fastImpl_none _ _ (by rw [fastImpl_set_registry]; exact hfast)]
    exact registryWalk_found _ _ _ hwalk
  · simp [DispatchRegistry.get_impl, dictGetD, dictGet_dictSet_self]

/-- Witness for C5 at the fixture `plainReg` / `tyIntC9`. -/
theorem add_impl_last_write_wins_witness :
    tyIntC9.mro = tyIntC9.id :: [0]
      ∧ DispatchRegistry.fastImpl plainReg tyIntC9 = none
      ∧ ∃ reg1 reg2,
          DispatchRegistry.add_impl plainReg objF1 [PyVal.type tyIntC9] = Except.ok reg1
            ∧ reg1.add_impl objF2 [PyVal.type tyIntC9] = Except.ok reg2
            ∧ reg2.decide_impl tyIntC9 = Except.ok objF2
            ∧ reg2.get_impl [PyVal.type tyIntC9] = Except.ok objF2 :=
  ⟨by decide, by decide,
    add_impl_last_write_wins plainReg objF1 objF2 tyIntC9 [0] (by decide) (by decide)⟩

/-- C6 counterexample: the claim says the resolution failure carries
both the operation name and the concrete type name.  On the code, the
`NotImplementedError` message is built from the enclosing class name and
the type name only: two slots of `Show` whose operations are named
`render` and `other_op` raise the identical error, so the payload cannot
carry the operation name. -/
theorem error_payload_lacks_operation_name :
    regRender.functionName ≠ regOther.functionName
      ∧ DispatchRegistry.decide_impl regRender tyEmptyC
        = Except.error (PyError.notImplementedError
            "No implementation of Show found for EmptyClass")
      ∧ DispatchRegistry.decide_impl regRender tyEmptyC
        = DispatchRegistry.decide_impl regOther tyEmptyC := by
  refine ⟨by decide, by decide, by decide⟩

/-- C6 (amended): when no override is found via the fast path and no
registration matches along the MRO, `decide_impl` raises a
`NotImplementedError` whose message names the enclosing interface (when
one is set) and the concrete type — the operation name is not part of
the payload. -/
theorem decide_impl_error_names_interface_and_type {α : Type}
    (reg : DispatchRegistry α) (t : PyType α)
    (hfast : reg.fastImpl t = none)
    (hmiss : mroLookup reg.registry t.mro = none) :
    reg.decide_impl t = Except.error (PyError.notImplementedError
      (noImplMsg (reg.enclosingClass.map Prod.snd) t.name)) := by
  rw [decide_impl_of_fastImpl_none _ _ hfast]
  exact registryWalk_missing _ _ hmiss

/-- Witness for C6 (amended) at the fixture `regRender` / `tyEmptyC`. -/
theorem decide_impl_error_names_interface_and_type_witness :
    DispatchRegistry.fastImpl regRender tyEmptyC = none
      ∧ mroLookup regRender.registry tyEmptyC.mro = none
      ∧ DispatchRegistry.decide_impl regRender tyEmptyC
        = Except.error (PyError.notImplementedError
            (noImplMsg (regRender.enclosingClass.map Prod.snd) tyEmptyC.name)) :=
  ⟨by decide, by decide,
    decide_impl_error_names_interface_and_type regRender tyEmptyC (by decide)
      (by decide)⟩

/-- C7: the claim says a type-dispatch slot invoked with a subclass `S`
of the registrant `R` (the type value itself or an instance) selects
`R`'s implementation and invokes it bound to `S`.  On the code,
selection is right, but `impl.__get__(key)` binds a type-valued key to
its *metaclass* (`type(S)`, identity 100 here), not to `S` (identity 2);
only an instance key yields a binding to `S`. -/
theorem class_getitem_binds_metaclass_for_type_key :
    classMethodGetItem cmRegC7 (TyOrInstance.typeVal tySWidget)
        = Except.ok (objRImpl, 100)
      ∧ (100 : Nat) ≠ tySWidget.id
      ∧ classMethodGetItem cmRegC7 (TyOrInstance.instVal tySWidget)
        = Except.ok (objRImpl, 2) := by
  refine ⟨by decide, by decide, by decide⟩

/-- C8: for a static-dispatch slot, the resolved implementation is
called with exactly the remaining arguments; the type/receiver key used
for resolution is not forwarded. -/
theorem static_dispatch_consumes_resolution_arg {γ : Type}
    (reg : DispatchRegistry (SMImpl γ)) (key : TyOrInstance (SMImpl γ))
    (args : List Nat) (f : γ)
    (h : staticMethodGetItem reg key = Except.ok (SMImpl.staticmethodObj f)) :
    staticMethodSubscriptCall reg key args = Except.ok (f, args) := by
  unfold staticMethodSubscriptCall
  rw [h]
  rfl

/-- Witness for C8 at the fixture `smRegC8` / `tySWidgetS`. -/
theorem static_dispatch_consumes_resolution_arg_witness :
    staticMethodGetItem smRegC8 (TyOrInstance.typeVal tySWidgetS)
        = Except.ok (SMImpl.staticmethodObj objSImpl)
      ∧ staticMethodSubscriptCall smRegC8 (TyOrInstance.typeVal tySWidgetS) [5, 6]
        = Except.ok (objSImpl, [5, 6]) :=
  ⟨by decide,
    static_dispatch_consumes_resolution_arg smRegC8 (TyOrInstance.typeVal tySWidgetS)
      [5, 6] objSImpl (by decide)⟩

/-- C9 counterexample: the claim says registering a non-callable
implementation fails fast with an error.  On the code, `add_impl` only
validates the type key: a non-callable value is accepted and stored in
the registry without any error. -/
theorem add_impl_accepts_non_callable :
    objNonCallable.callable = false
      ∧ DispatchRegistry.add_impl plainReg objNonCallable [PyVal.type tyIntC9]
        = Except.ok { plainReg with registry := [(3, objNonCallable)] } := by
  refine ⟨by decide, by decide⟩

/-- C9 (amended): a registration whose type-key argument is not a type
fails fast with a `ValueError` and the registry is left unchanged (the
error is raised before any mutation); the implementation argument is
never validated, so any value — callable or not — is accepted when the
key is a type. -/
theorem add_impl_validates_key_not_callability {α : Type}
    (reg : DispatchRegistry α) (func : α) (t : PyType α) :
    reg.add_impl func [PyVal.nonType]
        = Except.error (PyError.valueError
            "Single dispatch only supports dispatching based on types")
      ∧ reg.add_impl func [PyVal.type t]
        = Except.ok { reg with registry := dictSet reg.registry t.id func } :=
  ⟨rfl, rfl⟩

/-- C10: `get_impl` is an exact-key lookup with the fallback function as
default and no MRO walk: a strict subclass `S` of a registrant `R`,
itself unregistered, gets the fallback rather than `R`'s implementation,
and `R` itself gets its registered implementation; neither call raises. -/
theorem get_impl_exact_lookup_only {α : Type} (reg : DispatchRegistry α)
    (s r : PyType α) (fR : α)
    (hanc : r.id ∈ s.mro) (hne : s.id ≠ r.id)
    (hs : dictGet reg.registry s.id = none)
    (hr : dictGet reg.registry r.id = some fR) :
    reg.get_impl [PyVal.type s] = Except.ok reg.function
      ∧ reg.get_impl [PyVal.type r] = Except.ok fR := by
  constructor
  · simp [DispatchRegistry.get_impl, dictGetD, hs]
  · simp [DispatchRegistry.get_impl, dictGetD, hr]

/-- Witness for C10 at the fixture `regC10` / `tySC10` / `tyRC10`. -/
theorem get_impl_exact_lookup_only_witness :
    tyRC10.id ∈ tySC10.mro
      ∧ dictGet regC10.registry tySC10.id = none
      ∧ dictGet regC10.registry tyRC10.id = some objReg
      ∧ DispatchRegistry.get_impl regC10 [PyVal.type tySC10]
        = Except.ok regC10.function
      ∧ DispatchRegistry.get_impl regC10 [PyVal.type tyRC10] = Except.ok objReg :=
  ⟨by decide, by decide, by decide,
    (get_impl_exact_lookup_only regC10 tySC10 tyRC10 objReg (by decide) (by decide)
      (by decide) (by decide)).1,
    (get_impl_exact_lookup_only regC10 tySC10 tyRC10 objReg (by decide) (by decide)
      (by decide) (by decide)).2⟩

end Apfel
